import Mathlib

/-!
Verification of the `assignment10` user registration/login service.

The router logic is embedded from `app/routers/auth.py` and the schemas
from `app/schemas/user.py`. The credential hasher, token issuer and the
database commit behaviour live in modules outside the provided sources
(`app/models/user.py`, `app/utils/security.py`, `app/database.py`); those
are modelled from the specification (sections 4.1-4.3) and are marked as
such in their doc comments.
-/

namespace Assignment10

/-- Substring check on lists of characters: `listIsPre n h` is true when
`n` is an initial segment of `h` (the model of Python's startswith used
to build the `in` substring operator). -/
def listIsPre : List Char → List Char → Bool
  | [], _ => true
  | _ :: _, [] => false
  | a :: as, b :: bs => a == b && listIsPre as bs

/-- `listHasSub needle hay` is true when `needle` occurs contiguously in
`hay`; used to model Python's `"x" in s` substring test. -/
def listHasSub (needle : List Char) : List Char → Bool
  | [] => listIsPre needle []
  | c :: rest => listIsPre needle (c :: rest) || listHasSub needle rest

/-- `strContains hay needle` models the Python expression `needle in hay`
on strings (contiguous substring containment). -/
def strContains (hay needle : String) : Bool :=
  listHasSub needle.toList hay.toList

/-- The persisted `User` row (spec section 3, `app/models/user.py` is not
in the provided sources; required fields are fixed by the spec's data
model and by how `auth.py` and the schemas use them): `id`, `username`,
`email`, `password_hash`, `created_at`. `id` and `created_at` are
rendered as naturals (uuid / timestamp made abstract). -/
structure User where
  id : Nat
  username : String
  email : String
  password_hash : String
  created_at : Nat
deriving Repr, DecidableEq

/-- Modelled from the spec (section 4.1, Credential Hasher; the source
file `app/models/user.py` holding `set_password` is not provided):
`hash(plaintext) -> hash_string`, one-way and injective on plaintexts,
never equal to the plaintext. The salt/cost machinery is abstracted; the
tag keeps `hash p ≠ p`. -/
def hash (plaintext : String) : String := "bcrypt$" ++ plaintext

/-- Modelled from the spec (section 4.1; `verify_password` in
`app/models/user.py` is not provided): `verify(plaintext, hash_string)`
is true exactly when the stored hash is the hash of the plaintext. -/
def verify (plaintext stored : String) : Bool := hash plaintext == stored

/-- Claims set of an issued token (spec section 4.2 and glossary:
subject id and expiry). -/
structure Token where
  sub : String
  exp : Nat
deriving Repr, DecidableEq

/-- Modelled from the spec (section 4.2, Token Issuer;
`app/utils/security.py` holding `create_access_token` is not provided):
`issue(subject_id, ttl)` produces a signed structure carrying
`{subject: subject_id, expires_at: now + ttl}`. Time is in seconds. -/
def create_access_token (sub : String) (now expires_delta : Nat) : Token :=
  { sub := sub, exp := now + expires_delta }

/-- `UserCreate` schema from `app/schemas/user.py`: the raw registration
request body. Constraints (username 3-50 chars, email syntax, password
at least 8 chars) are enforced by `validateUserCreate` below. -/
structure UserCreate where
  username : String
  email : String
  password : String
deriving Repr, DecidableEq

/-- `UserLogin` schema from `app/schemas/user.py`. -/
structure UserLogin where
  email : String
  password : String
deriving Repr, DecidableEq

/-- `UserRead` schema from `app/schemas/user.py`: the public user view,
exactly the fields `id`, `username`, `email`, `created_at`; no password
field exists in this representation. -/
structure UserRead where
  id : Nat
  username : String
  email : String
  created_at : Nat
deriving Repr, DecidableEq

/-- Serialization of a `User` row through the `UserRead` response model
(`response_model=UserRead` with `from_attributes = True`). -/
def UserRead.ofUser (u : User) : UserRead :=
  { id := u.id, username := u.username, email := u.email, created_at := u.created_at }

/-- The serialized key/value representation of the public user view, as
it leaves the service (JSON object fields in declaration order). -/
def UserRead.fields (v : UserRead) : List (String × String) :=
  [("id", toString v.id), ("username", v.username),
   ("email", v.email), ("created_at", toString v.created_at)]

/-- `TokenResponse` schema from `app/schemas/user.py`: access token,
token type and the public user view. The token is carried as its claims
set (signing/encoding abstracted). -/
structure TokenResponse where
  access_token : Token
  token_type : String
  user : UserRead
deriving Repr, DecidableEq

/-- Modelled from the spec (section 7's `EmailStr` requirement: "valid
email syntax"; enforcement lives in the external schema library): a
minimal well-formedness check - one `@` separating a nonempty local part
from a nonempty domain that contains a dot. -/
def isValidEmail (e : String) : Bool :=
  match e.splitOn "@" with
  | [local_, domain] =>
      !local_.isEmpty && !domain.isEmpty && strContains domain "." &&
      !domain.startsWith "." && !domain.endsWith "."
  | _ => false

/-- Modelled from the spec (section 4.4 step 1; the schema constraints
are declared in `app/schemas/user.py` on `UserCreate`, executed by the
external validation layer): username length 3-50, valid email syntax,
password length at least 8. -/
def validateUserCreate (username email password : String) : Bool :=
  3 ≤ username.length && username.length ≤ 50 &&
  isValidEmail email && 8 ≤ password.length

/-- Outcome of `db.commit()` as observed by `register` in
`app/routers/auth.py`: success, an `IntegrityError` carrying its message
string, or any other exception carrying its message string. -/
inductive CommitResult
  | ok
  | integrityError (msg : String)
  | otherError (msg : String)
deriving Repr, DecidableEq

/-- Modelled from the spec (section 4.3, User Store; `app/database.py`
and the ORM layer are not provided): committing a new row fails with a
uniqueness `IntegrityError` naming the conflicting column when the
username or email already exists, and succeeds otherwise. -/
def dbCommit (db : List User) (u : User) : CommitResult :=
  if db.any (fun v => v.username == u.username) then
    CommitResult.integrityError "UNIQUE constraint failed: users.username"
  else if db.any (fun v => v.email == u.email) then
    CommitResult.integrityError "UNIQUE constraint failed: users.email"
  else
    CommitResult.ok

/-- Response of the register endpoint: `created` is HTTP 201 with the
public user view (`status_code=201` on the route decorator); `error` is
an `HTTPException` with its status code and detail string. -/
inductive RegisterResponse
  | created (body : UserRead)
  | error (status : Nat) (detail : String)
deriving Repr, DecidableEq

/-- HTTP status of a register response (`created` is 201 by the route's
`status_code=201`). -/
def RegisterResponse.statusCode : RegisterResponse → Nat
  | RegisterResponse.created _ => 201
  | RegisterResponse.error s _ => s

/-- The `User` row built by `register` before persisting: username and
email from the request, `password_hash` from `set_password`, with the
generated id and creation timestamp. -/
def newUser (user_data : UserCreate) (freshId now : Nat) : User :=
  { id := freshId, username := user_data.username, email := user_data.email,
    password_hash := hash user_data.password, created_at := now }

/-- The `register` handler from `app/routers/auth.py` (lines 13-36).
State passing makes the session explicit: the result pairs the HTTP
response with the store after the request. `commit` is the persistence
layer's outcome function (`db.commit()`); on success the row is added,
on `IntegrityError` the handler rolls back and string-matches the
message for `"username"` / `"email"`, on any other exception it rolls
back and returns a 500 embedding the exception text. -/
def register (user_data : UserCreate) (db : List User) (freshId now : Nat)
    (commit : List User → User → CommitResult) :
    RegisterResponse × List User :=
  match commit db (newUser user_data freshId now) with
  | CommitResult.ok =>
      (RegisterResponse.created (UserRead.ofUser (newUser user_data freshId now)),
        db ++ [newUser user_data freshId now])
  | CommitResult.integrityError msg =>
      if strContains msg "username" then
        (RegisterResponse.error 400 "Username already exists", db)
      else if strContains msg "email" then
        (RegisterResponse.error 400 "Email already exists", db)
      else
        (RegisterResponse.error 400 "Registration failed", db)
  | CommitResult.otherError msg =>
      (RegisterResponse.error 500 ("Internal server error: " ++ msg), db)

/-- The full register endpoint: the external schema layer validates the
body shape first (`UserCreate` constraints); only a valid body reaches
`register`. `none` is the validation rejection (the core never runs and
the store is untouched). -/
def registerEndpoint (username email password : String) (db : List User)
    (freshId now : Nat) (commit : List User → User → CommitResult) :
    Option (RegisterResponse × List User) :=
  if validateUserCreate username email password then
    some (register { username := username, email := email, password := password }
      db freshId now commit)
  else
    none

/-- `db.query(User).filter(User.email == credentials.email).first()` from
`app/routers/auth.py` line 41: first stored user whose email equals the
given string exactly. -/
def find_by_email (db : List User) (email : String) : Option User :=
  db.find? (fun u => u.email == email)

/-- Response of the login endpoint: `ok` is HTTP 200 with the
`TokenResponse` body; `error` is an `HTTPException`. -/
inductive LoginResponse
  | ok (body : TokenResponse)
  | error (status : Nat) (detail : String)
deriving Repr, DecidableEq

/-- HTTP status of a login response (`ok` is 200, the route default). -/
def LoginResponse.statusCode : LoginResponse → Nat
  | LoginResponse.ok _ => 200
  | LoginResponse.error s _ => s

/-- The `login` handler from `app/routers/auth.py` (lines 38-59): look
up the user by email; if absent, or if password verification fails,
return 401 "Invalid email or password"; otherwise issue an access token
with a 30-minute expiry (`timedelta(minutes=30)`, here 1800 seconds)
bound to the user's id, and return it with token type "bearer" and the
public user view. -/
def login (credentials : UserLogin) (db : List User) (now : Nat) : LoginResponse :=
  match find_by_email db credentials.email with
  | none => LoginResponse.error 401 "Invalid email or password"
  | some db_user =>
      if !verify credentials.password db_user.password_hash then
        LoginResponse.error 401 "Invalid email or password"
      else
        LoginResponse.ok
          { access_token := create_access_token (toString db_user.id) now (30 * 60),
            token_type := "bearer",
            user := UserRead.ofUser db_user }

/-- A login request that fails: no stored user has the given email, or
the first user with that email fails password verification. -/
def loginFails (credentials : UserLogin) (db : List User) : Prop :=
  find_by_email db credentials.email = none ∨
  ∃ u, find_by_email db credentials.email = some u ∧
    verify credentials.password u.password_hash = false

/-! ### Helper lemmas -/

/-- The username-conflict message produced by the store contains the
substring `"username"`. -/
theorem strContains_usernameMsg_username :
    strContains "UNIQUE constraint failed: users.username" "username" = true := by
  decide

/-- The email-conflict message produced by the store does not contain the
substring `"username"`. -/
theorem strContains_emailMsg_username :
    strContains "UNIQUE constraint failed: users.email" "username" = false := by
  decide

/-- The email-conflict message produced by the store contains the
substring `"email"`. -/
theorem strContains_emailMsg_email :
    strContains "UNIQUE constraint failed: users.email" "email" = true := by
  decide

/-- Every failing login returns exactly 401 "Invalid email or password"
(both the no-such-user branch and the wrong-password branch). -/
theorem login_fail_response (c : UserLogin) (db : List User) (now : Nat)
    (h : loginFails c db) :
    login c db now = LoginResponse.error 401 "Invalid email or password" := by
  rcases h with h | ⟨u, hu, hv⟩
  · simp [login, h]
  · simp [login, hu, hv]

/-! ### Claim theorems -/

/-- C1: for every login request, if no user exists with the given email,
or a user exists but password verification against the stored hash
fails, the login operation returns the same outcome in both cases: HTTP
401 with the identical detail "Invalid email or password", so the two
failure causes are indistinguishable to the client. -/
theorem login_failure_indistinguishable
    (c₁ c₂ : UserLogin) (db₁ db₂ : List User) (now₁ now₂ : Nat)
    (h₁ : loginFails c₁ db₁) (h₂ : loginFails c₂ db₂) :
    login c₁ db₁ now₁ = LoginResponse.error 401 "Invalid email or password" ∧
    login c₁ db₁ now₁ = login c₂ db₂ now₂ := by
  have k₁ := login_fail_response c₁ db₁ now₁ h₁
  have k₂ := login_fail_response c₂ db₂ now₂ h₂
  exact ⟨k₁, k₁.trans k₂.symm⟩

/-- Witness for C1: a login against an empty store (no such email) and a
login with the right email but wrong password produce the identical 401
response. -/
theorem login_failure_indistinguishable_witness :
    login ⟨"ghost@example.com", "SecurePass123"⟩ [] 0 =
      LoginResponse.error 401 "Invalid email or password" ∧
    login ⟨"ghost@example.com", "SecurePass123"⟩ [] 0 =
      login ⟨"john@example.com", "wrong"⟩
        [⟨1, "johndoe", "john@example.com", hash "SecurePass123", 0⟩] 5 :=
  login_failure_indistinguishable
    ⟨"ghost@example.com", "SecurePass123"⟩ ⟨"john@example.com", "wrong"⟩
    [] [⟨1, "johndoe", "john@example.com", hash "SecurePass123", 0⟩] 0 5
    (Or.inl (by decide))
    (Or.inr ⟨⟨1, "johndoe", "john@example.com", hash "SecurePass123", 0⟩,
      by decide, by decide⟩)

/-- C2 (evaluating the code at the failing input): an unexpected
persistence failure with exception text "disk full" makes `register`
return HTTP 500 whose client-visible detail embeds the exception text
verbatim — contradicting the claim that the body does not contain it. -/
theorem register_internal_error_leaks_exception_text :
    (register ⟨"johndoe", "john@example.com", "SecurePass123"⟩ [] 1 0
        (fun _ _ => CommitResult.otherError "disk full")).1 =
      RegisterResponse.error 500 "Internal server error: disk full" ∧
    strContains "Internal server error: disk full" "disk full" = true := by
  exact ⟨rfl, by decide⟩

/-- C3: a registration hitting a duplicate username (the store's
uniqueness conflict naming the username column) yields HTTP 400
"Username already exists"; a duplicate email (with the username fresh)
yields HTTP 400 "Email already exists"; in both cases the store is left
unchanged. -/
theorem register_duplicate_conflict_identifies_field
    (user_data : UserCreate) (db : List User) (freshId now : Nat) :
    ((∃ v ∈ db, v.username = user_data.username) →
      register user_data db freshId now dbCommit =
        (RegisterResponse.error 400 "Username already exists", db)) ∧
    ((∃ v ∈ db, v.email = user_data.email) →
      (∀ v ∈ db, v.username ≠ user_data.username) →
      register user_data db freshId now dbCommit =
        (RegisterResponse.error 400 "Email already exists", db)) := by
  constructor
  · intro h
    have hb : (db.any fun v => v.username == user_data.username) = true := by
      rcases h with ⟨v, hv, he⟩
      exact List.any_eq_true.mpr ⟨v, hv, by simp [he]⟩
    simp [register, dbCommit, newUser, hb, strContains_usernameMsg_username]
  · intro h hn
    have hbu : (db.any fun v => v.username == user_data.username) = false := by
      rw [← Bool.not_eq_true, List.any_eq_true]
      rintro ⟨v, hv, he⟩
      exact hn v hv (by simpa using he)
    have hbe : (db.any fun v => v.email == user_data.email) = true := by
      rcases h with ⟨v, hv, he⟩
      exact List.any_eq_true.mpr ⟨v, hv, by simp [he]⟩
    simp [register, dbCommit, newUser, hbu, hbe,
      strContains_emailMsg_username, strContains_emailMsg_email]

/-- Witness for C3: with "johndoe" already stored, registering "johndoe"
again (different email) yields the username-conflict error, and
registering a fresh username with the stored email yields the
email-conflict error. -/
theorem register_duplicate_conflict_identifies_field_witness :
    (register ⟨"johndoe", "other@example.com", "SecurePass123"⟩
        [⟨1, "johndoe", "john@example.com", hash "pw123456", 0⟩] 2 7 dbCommit =
      (RegisterResponse.error 400 "Username already exists",
        [⟨1, "johndoe", "john@example.com", hash "pw123456", 0⟩])) ∧
    (register ⟨"janedoe", "john@example.com", "SecurePass123"⟩
        [⟨1, "johndoe", "john@example.com", hash "pw123456", 0⟩] 2 7 dbCommit =
      (RegisterResponse.error 400 "Email already exists",
        [⟨1, "johndoe", "john@example.com", hash "pw123456", 0⟩])) :=
  ⟨(register_duplicate_conflict_identifies_field
      ⟨"johndoe", "other@example.com", "SecurePass123"⟩
      [⟨1, "johndoe", "john@example.com", hash "pw123456", 0⟩] 2 7).1
      ⟨⟨1, "johndoe", "john@example.com", hash "pw123456", 0⟩, by simp, rfl⟩,
   (register_duplicate_conflict_identifies_field
      ⟨"janedoe", "john@example.com", "SecurePass123"⟩
      [⟨1, "johndoe", "john@example.com", hash "pw123456", 0⟩] 2 7).2
      ⟨⟨1, "johndoe", "john@example.com", hash "pw123456", 0⟩, by simp, rfl⟩
      (by intro v hv; simp at hv; subst hv; decide)⟩

/-- C4: every successful login issues an access token whose claims set
carries the authenticated user's id as subject and an expiry exactly 30
minutes (1800 seconds) after issuance. -/
theorem login_token_claims
    (c : UserLogin) (db : List User) (now : Nat) (u : User)
    (hf : find_by_email db c.email = some u)
    (hv : verify c.password u.password_hash = true) :
    ∃ body, login c db now = LoginResponse.ok body ∧
      body.access_token.sub = toString u.id ∧
      body.access_token.exp = now + 30 * 60 :=
  ⟨⟨⟨toString u.id, now + 30 * 60⟩, "bearer", UserRead.ofUser u⟩,
    by simp [login, hf, hv, create_access_token], rfl, rfl⟩

/-- Witness for C4: logging in with the stored credentials yields a
token with subject "1" and expiry 1000 + 1800. -/
theorem login_token_claims_witness :
    ∃ body,
      login ⟨"john@example.com", "SecurePass123"⟩
        [⟨1, "johndoe", "john@example.com", hash "SecurePass123", 0⟩] 1000 =
        LoginResponse.ok body ∧
      body.access_token.sub = toString (1 : Nat) ∧
      body.access_token.exp = 1000 + 30 * 60 :=
  login_token_claims ⟨"john@example.com", "SecurePass123"⟩
    [⟨1, "johndoe", "john@example.com", hash "SecurePass123", 0⟩] 1000
    ⟨1, "johndoe", "john@example.com", hash "SecurePass123", 0⟩
    (by decide) (by decide)

/-- C5: every successful registration returns HTTP 201 and the public
user view containing exactly the fields id, username, email and
created_at; neither a password field nor a password_hash field appears
in the returned representation. -/
theorem register_success_public_view
    (user_data : UserCreate) (db : List User) (freshId now : Nat)
    (commit : List User → User → CommitResult)
    (h : commit db (newUser user_data freshId now) = CommitResult.ok) :
    register user_data db freshId now commit =
      (RegisterResponse.created (UserRead.ofUser (newUser user_data freshId now)),
        db ++ [newUser user_data freshId now]) ∧
    (register user_data db freshId now commit).1.statusCode = 201 ∧
    ((UserRead.ofUser (newUser user_data freshId now)).fields.map Prod.fst =
      ["id", "username", "email", "created_at"]) ∧
    "password" ∉ ((UserRead.ofUser (newUser user_data freshId now)).fields.map Prod.fst) ∧
    "password_hash" ∉
      ((UserRead.ofUser (newUser user_data freshId now)).fields.map Prod.fst) := by
  refine ⟨by simp [register, h], by simp [register, h, RegisterResponse.statusCode],
    rfl, ?_, ?_⟩ <;> simp [UserRead.fields]

/-- Witness for C5: registering "johndoe" into an empty store succeeds
with status 201 and the four public fields. -/
theorem register_success_public_view_witness :
    register ⟨"johndoe", "john@example.com", "SecurePass123"⟩ [] 1 10 dbCommit =
      (RegisterResponse.created
        (UserRead.ofUser (newUser ⟨"johndoe", "john@example.com", "SecurePass123"⟩ 1 10)),
        [] ++ [newUser ⟨"johndoe", "john@example.com", "SecurePass123"⟩ 1 10]) ∧
    (register ⟨"johndoe", "john@example.com", "SecurePass123"⟩ [] 1 10
        dbCommit).1.statusCode = 201 ∧
    ((UserRead.ofUser (newUser ⟨"johndoe", "john@example.com", "SecurePass123"⟩
        1 10)).fields.map Prod.fst = ["id", "username", "email", "created_at"]) ∧
    "password" ∉ ((UserRead.ofUser (newUser ⟨"johndoe", "john@example.com",
        "SecurePass123"⟩ 1 10)).fields.map Prod.fst) ∧
    "password_hash" ∉ ((UserRead.ofUser (newUser ⟨"johndoe", "john@example.com",
        "SecurePass123"⟩ 1 10)).fields.map Prod.fst) :=
  register_success_public_view ⟨"johndoe", "john@example.com", "SecurePass123"⟩
    [] 1 10 dbCommit (by decide)

/-- C6: every successful login returns HTTP 200 with a body containing
the issued access token, the token type literal "bearer", and the public
user view of the authenticated user. -/
theorem login_success_response
    (c : UserLogin) (db : List User) (now : Nat) (u : User)
    (hf : find_by_email db c.email = some u)
    (hv : verify c.password u.password_hash = true) :
    login c db now = LoginResponse.ok
      { access_token := create_access_token (toString u.id) now (30 * 60),
        token_type := "bearer",
        user := UserRead.ofUser u } ∧
    (login c db now).statusCode = 200 := by
  have he : login c db now = LoginResponse.ok
      { access_token := create_access_token (toString u.id) now (30 * 60),
        token_type := "bearer",
        user := UserRead.ofUser u } := by
    simp [login, hf, hv]
  exact ⟨he, by rw [he]; rfl⟩

/-- Witness for C6: logging in with the stored credentials returns 200
with the bearer token response. -/
theorem login_success_response_witness :
    login ⟨"john@example.com", "SecurePass123"⟩
      [⟨1, "johndoe", "john@example.com", hash "SecurePass123", 0⟩] 1000 =
      LoginResponse.ok
        { access_token := create_access_token (toString (1 : Nat)) 1000 (30 * 60),
          token_type := "bearer",
          user := UserRead.ofUser ⟨1, "johndoe", "john@example.com",
            hash "SecurePass123", 0⟩ } ∧
    (login ⟨"john@example.com", "SecurePass123"⟩
      [⟨1, "johndoe", "john@example.com", hash "SecurePass123", 0⟩]
      1000).statusCode = 200 :=
  login_success_response ⟨"john@example.com", "SecurePass123"⟩
    [⟨1, "johndoe", "john@example.com", hash "SecurePass123", 0⟩] 1000
    ⟨1, "johndoe", "john@example.com", hash "SecurePass123", 0⟩
    (by decide) (by decide)

/-- C7: registration is atomic on the store: either the new row is fully
persisted (appended to the store) or the store is left unchanged — every
failure path rolls back before surfacing the error. -/
theorem register_atomic
    (user_data : UserCreate) (db : List User) (freshId now : Nat)
    (commit : List User → User → CommitResult) :
    (register user_data db freshId now commit).2 =
      db ++ [newUser user_data freshId now] ∨
    (register user_data db freshId now commit).2 = db := by
  unfold register
  split
  · exact Or.inl rfl
  · split
    · exact Or.inr rfl
    · split
      · exact Or.inr rfl
      · exact Or.inr rfl
  · exact Or.inr rfl

/-- C8: the login lookup matches the stored email exactly as provided,
case-sensitively and with no normalization: any user it returns has an
email string equal to the request's email string, and it finds a user
exactly when some stored user's email equals the request's email. -/
theorem find_by_email_exact_match (db : List User) (email : String) :
    (∀ u, find_by_email db email = some u → u.email = email) ∧
    ((find_by_email db email).isSome = true ↔ ∃ u ∈ db, u.email = email) := by
  constructor
  · intro u hu
    simpa using List.find?_some hu
  · rw [find_by_email, List.find?_isSome]
    constructor
    · rintro ⟨u, hu, he⟩
      exact ⟨u, hu, by simpa using he⟩
    · rintro ⟨u, hu, he⟩
      exact ⟨u, hu, by simp [he]⟩

/-- Witness for C8: in a store holding "John@Example.com", the lookup
for the differently-cased "john@example.com" finds nothing, while the
exact string is found and returns that user. -/
theorem find_by_email_exact_match_witness :
    ((find_by_email [⟨1, "johndoe", "John@Example.com", hash "pw123456", 0⟩]
        "John@Example.com").isSome = true) ∧
    (∀ u, find_by_email [⟨1, "johndoe", "John@Example.com", hash "pw123456", 0⟩]
        "John@Example.com" = some u → u.email = "John@Example.com") ∧
    ((find_by_email [⟨1, "johndoe", "John@Example.com", hash "pw123456", 0⟩]
        "john@example.com").isSome = false) :=
  ⟨(find_by_email_exact_match
      [⟨1, "johndoe", "John@Example.com", hash "pw123456", 0⟩] "John@Example.com").2.mpr
      ⟨⟨1, "johndoe", "John@Example.com", hash "pw123456", 0⟩, by simp, rfl⟩,
   (find_by_email_exact_match
      [⟨1, "johndoe", "John@Example.com", hash "pw123456", 0⟩] "John@Example.com").1,
   by decide⟩

/-- C9: malformed registration input — username shorter than 3 or longer
than 50 characters, an invalid email, or a password shorter than 8
characters — is rejected by the validation layer and the core
hash-and-persist flow never runs (the endpoint returns the validation
rejection and no store interaction happens). -/
theorem register_invalid_input_rejected
    (username email password : String) (db : List User) (freshId now : Nat)
    (commit : List User → User → CommitResult)
    (h : username.length < 3 ∨ 50 < username.length ∨
         isValidEmail email = false ∨ password.length < 8) :
    registerEndpoint username email password db freshId now commit = none := by
  have hv : validateUserCreate username email password = false := by
    unfold validateUserCreate
    rcases h with h | h | h | h
    · have : decide (3 ≤ username.length) = false := by simp; omega
      simp [this]
    · have : decide (username.length ≤ 50) = false := by simp; omega
      simp [this]
    · simp [h]
    · have : decide (8 ≤ password.length) = false := by simp; omega
      simp [this]
  simp [registerEndpoint, hv]

/-- Witness for C9: a two-character username is rejected before the core
flow runs. -/
theorem register_invalid_input_rejected_witness :
    registerEndpoint "ab" "john@example.com" "SecurePass123" [] 1 0
      (fun _ _ => CommitResult.ok) = none :=
  register_invalid_input_rejected "ab" "john@example.com" "SecurePass123" [] 1 0
    (fun _ _ => CommitResult.ok) (Or.inl (by decide))

/-- C10: a persistence failure with an integrity-constraint error whose
message mentions neither "username" nor "email" makes `register` return
HTTP 400 with the generic detail "Registration failed" — the client
error path, not the 500 server-error path. -/
theorem register_unrecognized_integrity_error
    (user_data : UserCreate) (db : List User) (freshId now : Nat) (msg : String)
    (h1 : strContains msg "username" = false)
    (h2 : strContains msg "email" = false) :
    register user_data db freshId now (fun _ _ => CommitResult.integrityError msg) =
      (RegisterResponse.error 400 "Registration failed", db) := by
  simp [register, h1, h2]

/-- Witness for C10: an integrity error reading "FOREIGN KEY constraint
failed" (naming neither column) yields the generic 400. -/
theorem register_unrecognized_integrity_error_witness :
    register ⟨"johndoe", "john@example.com", "SecurePass123"⟩ [] 1 0
      (fun _ _ => CommitResult.integrityError "FOREIGN KEY constraint failed") =
      (RegisterResponse.error 400 "Registration failed", []) :=
  register_unrecognized_integrity_error
    ⟨"johndoe", "john@example.com", "SecurePass123"⟩ [] 1 0
    "FOREIGN KEY constraint failed" (by decide) (by decide)

end Assignment10
